import Mathlib

/-!
Shallow embedding of the llm-token-tracker core (pricing resolver, cost
calculator, usage aggregator, tracking-session manager, persistence
adapter) together with theorems settling the spec claims.

Sources embedded:
- `src/pricing.ts` : `normalizeModelName`, `PRICING`, `calculateCost`
- `src/tracker.ts` : `TokenTracker` (startTracking / endTracking /
  recordUsage / updateUserTotals / getUserUsage / getUserHistory /
  clearUserUsage / the private currency-converting calculateCost)
- `src/storage.ts` : `FileStorage.save` / `FileStorage.load` (data level)
- `src/mcp-server.js` : the `compare_costs` handler

JavaScript `Map` objects are embedded as association lists with the
`Map.get` / `Map.set` / `Map.delete` semantics, JS numbers as exact
rationals, and `Date` values as natural numbers of milliseconds since
the epoch.
-/

namespace TokenTrackerSpec

/-! ### Association-list maps (embedding of the JS `Map` / plain object) -/

/-- Embedding of `Map.get k` / `obj[k]`: first binding for the key. -/
def mapLookup (k : String) : List (String × β) → Option β
  | [] => none
  | (k', v) :: rest => if k = k' then some v else mapLookup k rest

/-- Embedding of `Map.set k v` / `obj[k] = v`: replace the binding in
place when the key is present, otherwise append it. -/
def mapSet (k : String) (v : β) : List (String × β) → List (String × β)
  | [] => [(k, v)]
  | (k', v') :: rest => if k' = k then (k, v) :: rest else (k', v') :: mapSet k v rest

/-- Embedding of `Map.delete k` / `delete obj[k]`. A JS `Map` holds at
most one binding per key, so removing every binding of `k` from the
association list coincides with `Map.delete` on all representative
states. -/
def mapDelete (k : String) : List (String × β) → List (String × β)
  | [] => []
  | (k', v') :: rest => if k' = k then mapDelete k rest else (k', v') :: mapDelete k rest

theorem mapLookup_mapSet_self (k : String) (v : β) (l : List (String × β)) :
    mapLookup k (mapSet k v l) = some v := by
  induction l with
  | nil => simp [mapSet, mapLookup]
  | cons hd tl ih =>
    obtain ⟨k', v'⟩ := hd
    by_cases h : k' = k
    · simp [mapSet, h, mapLookup]
    · simp only [mapSet, if_neg h]
      rw [mapLookup, if_neg (fun he => h he.symm), ih]

theorem mapLookup_mapSet_ne (k k' : String) (v : β) (l : List (String × β))
    (h : k' ≠ k) : mapLookup k' (mapSet k v l) = mapLookup k' l := by
  induction l with
  | nil => simp [mapSet, mapLookup, h]
  | cons hd tl ih =>
    obtain ⟨k₀, v₀⟩ := hd
    by_cases h₀ : k₀ = k
    · subst h₀
      simp [mapSet, mapLookup, h]
    · simp only [mapSet, if_neg h₀]
      rw [mapLookup, mapLookup]
      by_cases h₁ : k' = k₀
      · simp [h₁]
      · rw [if_neg h₁, if_neg h₁, ih]

theorem mapLookup_mapDelete_self (k : String) (l : List (String × β)) :
    mapLookup k (mapDelete k l) = none := by
  induction l with
  | nil => simp [mapDelete, mapLookup]
  | cons hd tl ih =>
    obtain ⟨k', v'⟩ := hd
    by_cases h : k' = k
    · rw [mapDelete, if_pos h, ih]
    · rw [mapDelete, if_neg h, mapLookup, if_neg (fun he => h he.symm), ih]

theorem mapLookup_mapDelete_ne (k k' : String) (l : List (String × β))
    (h : k' ≠ k) : mapLookup k' (mapDelete k l) = mapLookup k' l := by
  induction l with
  | nil => simp [mapDelete]
  | cons hd tl ih =>
    obtain ⟨k₀, v₀⟩ := hd
    by_cases h₀ : k₀ = k
    · subst h₀
      rw [mapDelete, if_pos rfl, ih, mapLookup, if_neg (fun he => h he)]
    · simp only [mapDelete, if_neg h₀]
      rw [mapLookup, mapLookup]
      by_cases h₁ : k' = k₀
      · simp [h₁]
      · rw [if_neg h₁, if_neg h₁, ih]

/-- Membership of the binding a successful lookup returns. -/
theorem mapLookup_mem (k : String) (v : β) (l : List (String × β))
    (h : mapLookup k l = some v) : (k, v) ∈ l := by
  induction l with
  | nil => simp [mapLookup] at h
  | cons hd tl ih =>
    obtain ⟨k', v'⟩ := hd
    rw [mapLookup] at h
    by_cases he : k = k'
    · rw [if_pos he] at h
      subst he
      cases h
      exact List.mem_cons_self _ _
    · rw [if_neg he] at h
      exact List.mem_cons_of_mem _ (ih h)

/-- Sum of a projection over the values of an association list. -/
def mapSum (g : β → ℚ) (l : List (String × β)) : ℚ :=
  (l.map (fun p => g p.2)).sum

theorem mapSum_mapSet_some (k : String) (v w : β) (g : β → ℚ) (l : List (String × β))
    (h : mapLookup k l = some w) :
    mapSum g (mapSet k v l) = mapSum g l + g v - g w := by
  induction l with
  | nil => simp [mapLookup] at h
  | cons hd tl ih =>
    obtain ⟨k', v'⟩ := hd
    rw [mapLookup] at h
    by_cases he : k = k'
    · rw [if_pos he] at h
      cases h
      rw [mapSet, if_pos he.symm]
      simp [mapSum]
      ring
    · rw [if_neg he] at h
      rw [mapSet, if_neg (fun hx => he hx.symm)]
      simp only [mapSum, List.map_cons, List.sum_cons] at *
      rw [ih h]
      ring

theorem mapSum_mapSet_none (k : String) (v : β) (g : β → ℚ) (l : List (String × β))
    (h : mapLookup k l = none) :
    mapSum g (mapSet k v l) = mapSum g l + g v := by
  induction l with
  | nil => simp [mapSum, mapSet]
  | cons hd tl ih =>
    obtain ⟨k', v'⟩ := hd
    rw [mapLookup] at h
    by_cases he : k = k'
    · rw [if_pos he] at h
      cases h
    · rw [if_neg he] at h
      rw [mapSet, if_neg (fun hx => he hx.symm)]
      simp only [mapSum, List.map_cons, List.sum_cons] at *
      rw [ih h]
      ring

/-! ### String helpers (embedding of `String.prototype` methods) -/

/-- Embedding of JS `haystack.includes(needle)`. -/
def listContainsSub (hay needle : List Char) : Bool :=
  match hay with
  | [] => needle.isEmpty
  | _ :: rest => needle.isPrefixOf hay || listContainsSub rest needle

/-- Embedding of JS `s.includes(sub)` on strings. -/
def strIncludes (s sub : String) : Bool := listContainsSub s.data sub.data

/-- Embedding of JS `s.startsWith(p)`. -/
def strStartsWith (s p : String) : Bool := p.data.isPrefixOf s.data

/-! ### `normalizeModelName` (src/pricing.ts)

`model.replace(/(\d+)\.(\d+)/g, '$1-$2')`: scan left to right; at a
position starting a maximal digit run followed by `.` and at least one
digit, rewrite the `.` to `-` and continue scanning after the second
digit run; otherwise advance one character. Fuel-based recursion so the
definition kernel-reduces; fuel equal to the list length always
suffices since every step consumes at least one character. -/

def normChars : ℕ → List Char → List Char
  | 0, cs => cs
  | _ + 1, [] => []
  | fuel + 1, c :: rest =>
    if c.isDigit then
      match (c :: rest).dropWhile Char.isDigit with
      | '.' :: r2 =>
        if (r2.takeWhile Char.isDigit).isEmpty then
          c :: normChars fuel rest
        else
          ((c :: rest).takeWhile Char.isDigit) ++
            '-' :: ((r2.takeWhile Char.isDigit) ++ normChars fuel (r2.dropWhile Char.isDigit))
      | _ => c :: normChars fuel rest
    else c :: normChars fuel rest

/-- Embedding of `normalizeModelName` from src/pricing.ts. -/
def normalizeModelName (model : String) : String :=
  ⟨normChars model.data.length model.data⟩

/-! ### Pricing table and cost calculator (src/pricing.ts) -/

/-- A per-1000-token input/output rate pair from the `PRICING` table. -/
structure Rates where
  input : ℚ
  output : ℚ
deriving DecidableEq

/-- Token-priced entries of `PRICING.openai` (USD per 1000 tokens).
Rates are written as exact rationals via `mkRat`; the decimal value from
the source is given in the comment. -/
def openaiTokenPricing : List (String × Rates) :=
  [("gpt-5", ⟨mkRat 125 100000, mkRat 10 1000⟩),            -- 0.00125 / 0.010
   ("gpt-5-mini", ⟨mkRat 25 100000, mkRat 10 10000⟩),       -- 0.00025 / 0.0010
   ("gpt-4.1", ⟨mkRat 20 10000, mkRat 8 1000⟩),             -- 0.0020 / 0.008
   ("gpt-4.1-mini", ⟨mkRat 15 100000, mkRat 6 10000⟩),      -- 0.00015 / 0.0006
   ("gpt-4o", ⟨mkRat 25 10000, mkRat 10 1000⟩),             -- 0.0025 / 0.010
   ("gpt-4o-mini", ⟨mkRat 15 100000, mkRat 6 10000⟩),       -- 0.00015 / 0.0006
   ("o1", ⟨mkRat 15 1000, mkRat 60 1000⟩),                  -- 0.015 / 0.060
   ("o1-mini", ⟨mkRat 11 10000, mkRat 44 10000⟩),           -- 0.0011 / 0.0044
   ("o1-pro", ⟨mkRat 15 1000, mkRat 60 1000⟩),              -- 0.015 / 0.060
   ("o3-mini", ⟨mkRat 11 10000, mkRat 44 10000⟩),           -- 0.0011 / 0.0044
   ("o4-mini", ⟨mkRat 11 10000, mkRat 44 10000⟩),           -- 0.0011 / 0.0044
   ("gpt-4-turbo-preview", ⟨mkRat 1 100, mkRat 3 100⟩),     -- 0.01 / 0.03
   ("gpt-4-turbo", ⟨mkRat 1 100, mkRat 3 100⟩),             -- 0.01 / 0.03
   ("gpt-4", ⟨mkRat 3 100, mkRat 6 100⟩),                   -- 0.03 / 0.06
   ("gpt-4-32k", ⟨mkRat 6 100, mkRat 12 100⟩),              -- 0.06 / 0.12
   ("gpt-3.5-turbo", ⟨mkRat 5 10000, mkRat 15 10000⟩),      -- 0.0005 / 0.0015
   ("gpt-3.5-turbo-16k", ⟨mkRat 1 1000, mkRat 2 1000⟩),     -- 0.001 / 0.002
   ("text-embedding-ada-002", ⟨mkRat 1 10000, 0⟩),          -- 0.0001 / 0
   ("text-embedding-3-small", ⟨mkRat 2 100000, 0⟩),         -- 0.00002 / 0
   ("text-embedding-3-large", ⟨mkRat 13 100000, 0⟩)]        -- 0.00013 / 0

/-- `PRICING.anthropic` (USD per 1000 tokens). -/
def anthropicPricing : List (String × Rates) :=
  [("claude-opus-4.1-20250805", ⟨mkRat 15 1000, mkRat 75 1000⟩),     -- 0.015 / 0.075
   ("claude-opus-4-20250522", ⟨mkRat 15 1000, mkRat 75 1000⟩),       -- 0.015 / 0.075
   ("claude-opus-4-20250514", ⟨mkRat 15 1000, mkRat 75 1000⟩),       -- 0.015 / 0.075
   ("claude-sonnet-4.5-20250929", ⟨mkRat 3 1000, mkRat 15 1000⟩),    -- 0.003 / 0.015
   ("claude-sonnet-4-20250514", ⟨mkRat 3 1000, mkRat 15 1000⟩),      -- 0.003 / 0.015
   ("claude-3.5-sonnet-20241022", ⟨mkRat 3 1000, mkRat 15 1000⟩),    -- 0.003 / 0.015
   ("claude-3.5-haiku-20241022", ⟨mkRat 25 100000, mkRat 125 100000⟩), -- 0.00025 / 0.00125
   ("claude-3-opus-20240229", ⟨mkRat 15 1000, mkRat 75 1000⟩),       -- 0.015 / 0.075
   ("claude-3-sonnet-20240229", ⟨mkRat 3 1000, mkRat 15 1000⟩),      -- 0.003 / 0.015
   ("claude-3-haiku-20240307", ⟨mkRat 25 100000, mkRat 125 100000⟩), -- 0.00025 / 0.00125
   ("claude-2.1", ⟨mkRat 8 1000, mkRat 24 1000⟩),                    -- 0.008 / 0.024
   ("claude-2.0", ⟨mkRat 8 1000, mkRat 24 1000⟩),                    -- 0.008 / 0.024
   ("claude-instant-1.2", ⟨mkRat 8 10000, mkRat 24 10000⟩)]          -- 0.0008 / 0.0024

/-- `PRICING.gemini` (USD per 1000 tokens). -/
def geminiPricing : List (String × Rates) :=
  [("gemini-2.0-flash-exp", ⟨0, 0⟩),                                 -- free during preview
   ("gemini-2.0-flash-thinking-exp-1219", ⟨0, 0⟩),                   -- free during preview
   ("gemini-1.5-pro", ⟨mkRat 125 100000, mkRat 5 1000⟩),             -- 0.00125 / 0.005
   ("gemini-1.5-pro-001", ⟨mkRat 125 100000, mkRat 5 1000⟩),         -- 0.00125 / 0.005
   ("gemini-1.5-pro-002", ⟨mkRat 125 100000, mkRat 5 1000⟩),         -- 0.00125 / 0.005
   ("gemini-1.5-flash", ⟨mkRat 75 1000000, mkRat 3 10000⟩),          -- 0.000075 / 0.0003
   ("gemini-1.5-flash-001", ⟨mkRat 75 1000000, mkRat 3 10000⟩),      -- 0.000075 / 0.0003
   ("gemini-1.5-flash-002", ⟨mkRat 75 1000000, mkRat 3 10000⟩),      -- 0.000075 / 0.0003
   ("gemini-1.5-flash-8b", ⟨mkRat 375 10000000, mkRat 15 100000⟩),   -- 0.0000375 / 0.00015
   ("gemini-1.0-pro", ⟨mkRat 5 10000, mkRat 15 10000⟩),              -- 0.0005 / 0.0015
   ("gemini-1.0-pro-001", ⟨mkRat 5 10000, mkRat 15 10000⟩),          -- 0.0005 / 0.0015
   ("gemini-1.0-pro-vision", ⟨mkRat 25 100000, mkRat 5 10000⟩),      -- 0.00025 / 0.0005
   ("gemini-ultra", ⟨mkRat 2 1000, mkRat 6 1000⟩)]                   -- 0.002 / 0.006

/-- `PRICING.openai['dall-e-3'].standard['1024x1024']`, i.e. 0.040. -/
def dalle3Standard1024 : ℚ := mkRat 40 1000

/-- `PRICING.openai['whisper-1'].perMinute`, i.e. 0.006. -/
def whisperPerMinute : ℚ := mkRat 6 1000

/-- The `perChar` entries of `PRICING.openai` used by the TTS branch
(0.000015 and 0.000030). -/
def ttsPerCharPricing : List (String × ℚ) :=
  [("tts-1", mkRat 15 1000000), ("tts-1-hd", mkRat 30 1000000)]

/-- The `gptModels` candidate list of `calculateCost` (normalized spellings). -/
def openaiGptCandidates : List String :=
  ["gpt-5", "gpt-5-mini", "gpt-4-1", "gpt-4-1-mini",
   "gpt-4o", "gpt-4o-mini",
   "o1", "o1-mini", "o1-pro", "o3-mini", "o4-mini",
   "gpt-4-turbo-preview", "gpt-4-turbo", "gpt-4", "gpt-4-32k",
   "gpt-3-5-turbo", "gpt-3-5-turbo-16k"]

/-- Maps a matched openai candidate name back to its `PRICING` key. -/
def openaiPricingKey (g : String) : String :=
  if g = "gpt-4-1" then "gpt-4.1"
  else if g = "gpt-4-1-mini" then "gpt-4.1-mini"
  else if g = "gpt-3-5-turbo" then "gpt-3.5-turbo"
  else if g = "gpt-3-5-turbo-16k" then "gpt-3.5-turbo-16k"
  else g

/-- The `claudeModels` candidate list of `calculateCost`. -/
def anthropicCandidates : List String :=
  ["claude-opus-4-1-20250805", "claude-opus-4-20250522", "claude-opus-4-20250514",
   "claude-sonnet-4-5-20250929", "claude-sonnet-4-20250514",
   "claude-3-5-sonnet-20241022", "claude-3-5-haiku-20241022",
   "claude-3-opus-20240229", "claude-3-sonnet-20240229", "claude-3-haiku-20240307",
   "claude-2-1", "claude-2-0", "claude-instant-1-2"]

/-- Maps a matched anthropic candidate name back to its `PRICING` key. -/
def anthropicPricingKey (g : String) : String :=
  if g = "claude-opus-4-1-20250805" then "claude-opus-4.1-20250805"
  else if g = "claude-sonnet-4-5-20250929" then "claude-sonnet-4.5-20250929"
  else if g = "claude-3-5-sonnet-20241022" then "claude-3.5-sonnet-20241022"
  else if g = "claude-3-5-haiku-20241022" then "claude-3.5-haiku-20241022"
  else if g = "claude-2-1" then "claude-2.1"
  else if g = "claude-2-0" then "claude-2.0"
  else if g = "claude-instant-1-2" then "claude-instant-1.2"
  else g

/-- The `geminiModels` candidate list of `calculateCost`. -/
def geminiCandidates : List String :=
  ["gemini-2-0-flash-exp", "gemini-2-0-flash-thinking-exp-1219",
   "gemini-1-5-pro", "gemini-1-5-pro-001", "gemini-1-5-pro-002",
   "gemini-1-5-flash", "gemini-1-5-flash-001", "gemini-1-5-flash-002",
   "gemini-1-5-flash-8b",
   "gemini-1-0-pro", "gemini-1-0-pro-001", "gemini-1-0-pro-vision",
   "gemini-ultra"]

/-- Maps a matched gemini candidate name back to its `PRICING` key. -/
def geminiPricingKey (g : String) : String :=
  if g = "gemini-2-0-flash-exp" then "gemini-2.0-flash-exp"
  else if g = "gemini-2-0-flash-thinking-exp-1219" then "gemini-2.0-flash-thinking-exp-1219"
  else if g = "gemini-1-5-pro" then "gemini-1.5-pro"
  else if g = "gemini-1-5-pro-001" then "gemini-1.5-pro-001"
  else if g = "gemini-1-5-pro-002" then "gemini-1.5-pro-002"
  else if g = "gemini-1-5-flash" then "gemini-1.5-flash"
  else if g = "gemini-1-5-flash-001" then "gemini-1.5-flash-001"
  else if g = "gemini-1-5-flash-002" then "gemini-1.5-flash-002"
  else if g = "gemini-1-5-flash-8b" then "gemini-1.5-flash-8b"
  else if g = "gemini-1-0-pro" then "gemini-1.0-pro"
  else if g = "gemini-1-0-pro-001" then "gemini-1.0-pro-001"
  else if g = "gemini-1-0-pro-vision" then "gemini-1.0-pro-vision"
  else g

/-- The first-match-wins candidate loop of `calculateCost`: a candidate
matches when the normalized model name contains it as a substring; on a
(statically impossible) missing pricing entry the loop falls through to
the next candidate, as in the source. -/
def findTokenRates (normalizedModel : String) (candidates : List String)
    (pricingKey : String → String) (pricing : List (String × Rates)) : Option Rates :=
  match candidates with
  | [] => none
  | g :: rest =>
    if strIncludes normalizedModel g then
      match mapLookup (pricingKey g) pricing with
      | some r => some r
      | none => findTokenRates normalizedModel rest pricingKey pricing
    else findTokenRates normalizedModel rest pricingKey pricing

/-- The TTS branch of `calculateCost`: a `tts-`-prefixed model whose
name is a key of the table bills per character; any other `tts-` name
falls through to the generic token path. -/
def ttsRate (normalizedModel : String) : Option ℚ :=
  if strStartsWith normalizedModel "tts-" then mapLookup normalizedModel ttsPerCharPricing
  else none

/-- Per-token billing: `(inputTokens/1000)*input + (outputTokens/1000)*output`. -/
def tokenCost (r : Rates) (inputTokens outputTokens : ℚ) : ℚ :=
  inputTokens / 1000 * r.input + outputTokens / 1000 * r.output

/-- Default openai rates: `PRICING.openai['gpt-3.5-turbo']` (0.0005 / 0.0015). -/
def openaiDefaultRates : Rates := ⟨mkRat 5 10000, mkRat 15 10000⟩

/-- Default anthropic rates: `PRICING.anthropic['claude-3-sonnet-20240229']`
(0.003 / 0.015). -/
def anthropicDefaultRates : Rates := ⟨mkRat 3 1000, mkRat 15 1000⟩

/-- Default gemini rates: `PRICING.gemini['gemini-1.5-flash']`
(0.000075 / 0.0003). -/
def geminiDefaultRates : Rates := ⟨mkRat 75 1000000, mkRat 3 10000⟩

/-- Embedding of `calculateCost` from src/pricing.ts. -/
def calculateCost (provider model : String) (inputTokens outputTokens : ℚ) : ℚ :=
  let normalizedModel := normalizeModelName model
  if provider = "openai" then
    if strStartsWith normalizedModel "dall-e" then
      inputTokens * dalle3Standard1024
    else if normalizedModel = "whisper-1" then
      inputTokens / 60 * whisperPerMinute
    else
      match ttsRate normalizedModel with
      | some perChar => inputTokens * perChar
      | none =>
        match findTokenRates normalizedModel openaiGptCandidates openaiPricingKey openaiTokenPricing with
        | some r => tokenCost r inputTokens outputTokens
        | none => tokenCost openaiDefaultRates inputTokens outputTokens
  else if provider = "anthropic" then
    match findTokenRates normalizedModel anthropicCandidates anthropicPricingKey anthropicPricing with
    | some r => tokenCost r inputTokens outputTokens
    | none => tokenCost anthropicDefaultRates inputTokens outputTokens
  else if provider = "gemini" then
    match findTokenRates normalizedModel geminiCandidates geminiPricingKey geminiPricing with
    | some r => tokenCost r inputTokens outputTokens
    | none => tokenCost geminiDefaultRates inputTokens outputTokens
  else
    (inputTokens + outputTokens) * mkRat 1 1000  -- flat 0.001 blended rate

/-! ### Branch lemmas and bounds for `calculateCost` -/

theorem calculateCost_openai_token (m : String) (r : Rates) (i o : ℚ)
    (h1 : strStartsWith (normalizeModelName m) "dall-e" = false)
    (h2 : ¬ normalizeModelName m = "whisper-1")
    (h3 : ttsRate (normalizeModelName m) = none)
    (h4 : findTokenRates (normalizeModelName m) openaiGptCandidates openaiPricingKey
            openaiTokenPricing = some r) :
    calculateCost "openai" m i o = tokenCost r i o := by
  simp only [calculateCost, h1, h2, h3, h4, Bool.false_eq_true, if_false, if_neg h2,
    if_pos rfl, if_true]

theorem calculateCost_openai_default (m : String) (i o : ℚ)
    (h1 : strStartsWith (normalizeModelName m) "dall-e" = false)
    (h2 : ¬ normalizeModelName m = "whisper-1")
    (h3 : ttsRate (normalizeModelName m) = none)
    (h4 : findTokenRates (normalizeModelName m) openaiGptCandidates openaiPricingKey
            openaiTokenPricing = none) :
    calculateCost "openai" m i o = tokenCost openaiDefaultRates i o := by
  simp only [calculateCost, h1, h2, h3, h4, Bool.false_eq_true, if_false, if_neg h2,
    if_pos rfl, if_true]

theorem calculateCost_anthropic_token (m : String) (r : Rates) (i o : ℚ)
    (h : findTokenRates (normalizeModelName m) anthropicCandidates anthropicPricingKey
           anthropicPricing = some r) :
    calculateCost "anthropic" m i o = tokenCost r i o := by
  simp only [calculateCost, h, if_pos rfl, if_true,
    if_neg (by decide : ¬ ("anthropic" : String) = "openai")]

theorem calculateCost_anthropic_default (m : String) (i o : ℚ)
    (h : findTokenRates (normalizeModelName m) anthropicCandidates anthropicPricingKey
           anthropicPricing = none) :
    calculateCost "anthropic" m i o = tokenCost anthropicDefaultRates i o := by
  simp only [calculateCost, h, if_pos rfl, if_true,
    if_neg (by decide : ¬ ("anthropic" : String) = "openai")]

theorem calculateCost_gemini_token (m : String) (r : Rates) (i o : ℚ)
    (h : findTokenRates (normalizeModelName m) geminiCandidates geminiPricingKey
           geminiPricing = some r) :
    calculateCost "gemini" m i o = tokenCost r i o := by
  simp only [calculateCost, h, if_pos rfl, if_true,
    if_neg (by decide : ¬ ("gemini" : String) = "openai"),
    if_neg (by decide : ¬ ("gemini" : String) = "anthropic")]

theorem calculateCost_gemini_default (m : String) (i o : ℚ)
    (h : findTokenRates (normalizeModelName m) geminiCandidates geminiPricingKey
           geminiPricing = none) :
    calculateCost "gemini" m i o = tokenCost geminiDefaultRates i o := by
  simp only [calculateCost, h, if_pos rfl, if_true,
    if_neg (by decide : ¬ ("gemini" : String) = "openai"),
    if_neg (by decide : ¬ ("gemini" : String) = "anthropic")]

theorem calculateCost_unknown_provider (p m : String) (i o : ℚ)
    (h1 : ¬ p = "openai") (h2 : ¬ p = "anthropic") (h3 : ¬ p = "gemini") :
    calculateCost p m i o = (i + o) * mkRat 1 1000 := by
  simp only [calculateCost, if_neg h1, if_neg h2, if_neg h3]

theorem findTokenRates_nonneg (nm : String) (cands : List String) (pk : String → String)
    (pricing : List (String × Rates)) (r : Rates)
    (hp : ∀ x ∈ pricing, 0 ≤ x.2.input ∧ 0 ≤ x.2.output)
    (h : findTokenRates nm cands pk pricing = some r) :
    0 ≤ r.input ∧ 0 ≤ r.output := by
  induction cands with
  | nil => simp [findTokenRates] at h
  | cons g rest ih =>
    rw [findTokenRates] at h
    by_cases hc : strIncludes nm g = true
    · rw [if_pos hc] at h
      cases hlook : mapLookup (pk g) pricing with
      | none => rw [hlook] at h; exact ih h
      | some w =>
        rw [hlook] at h
        cases h
        exact hp _ (mapLookup_mem _ _ _ hlook)
    · rw [if_neg hc] at h
      exact ih h

theorem ttsRate_nonneg (nm : String) (c : ℚ) (h : ttsRate nm = some c) : 0 ≤ c := by
  rw [ttsRate] at h
  by_cases hp : strStartsWith nm "tts-" = true
  · rw [if_pos hp] at h
    have hmem := mapLookup_mem _ _ _ h
    have hall : ∀ x ∈ ttsPerCharPricing, 0 ≤ x.2 := by decide
    exact hall _ hmem
  · rw [if_neg hp] at h
    cases h

theorem tokenCost_nonneg (r : Rates) (i o : ℚ) (hi : 0 ≤ i) (ho : 0 ≤ o)
    (h1 : 0 ≤ r.input) (h2 : 0 ≤ r.output) : 0 ≤ tokenCost r i o := by
  unfold tokenCost
  have d1 : (0:ℚ) ≤ i / 1000 := div_nonneg hi (by norm_num)
  have d2 : (0:ℚ) ≤ o / 1000 := div_nonneg ho (by norm_num)
  exact add_nonneg (mul_nonneg d1 h1) (mul_nonneg d2 h2)

theorem calculateCost_nonneg (p m : String) (i o : ℚ) (hi : 0 ≤ i) (ho : 0 ≤ o) :
    0 ≤ calculateCost p m i o := by
  unfold calculateCost
  dsimp only
  split
  · split
    · exact mul_nonneg hi (by decide)
    · split
      · exact mul_nonneg (div_nonneg hi (by norm_num)) (by decide)
      · split
        · rename_i perChar heq
          exact mul_nonneg hi (ttsRate_nonneg _ _ heq)
        · split
          · rename_i r heq
            obtain ⟨ha, hb⟩ := findTokenRates_nonneg _ _ _ _ _ (by decide) heq
            exact tokenCost_nonneg _ _ _ hi ho ha hb
          · exact tokenCost_nonneg _ _ _ hi ho (by decide) (by decide)
  · split
    · split
      · rename_i r heq
        obtain ⟨ha, hb⟩ := findTokenRates_nonneg _ _ _ _ _ (by decide) heq
        exact tokenCost_nonneg _ _ _ hi ho ha hb
      · exact tokenCost_nonneg _ _ _ hi ho (by decide) (by decide)
    · split
      · split
        · rename_i r heq
          obtain ⟨ha, hb⟩ := findTokenRates_nonneg _ _ _ _ _ (by decide) heq
          exact tokenCost_nonneg _ _ _ hi ho ha hb
        · exact tokenCost_nonneg _ _ _ hi ho (by decide) (by decide)
      · exact mul_nonneg (add_nonneg hi ho) (by decide)

/-! ### Data model of the tracker (src/index.ts types, src/tracker.ts state)

The open `metadata` bag of `TokenUsage` (observability pass-through
only) is omitted from the embedding; no claim mentions it. -/

inductive Currency where
  | USD
  | KRW
deriving DecidableEq

/-- The `cost` field of a `TokenUsage`. -/
structure Cost where
  amount : ℚ
  currency : Currency
deriving DecidableEq

/-- Embedding of the `TokenUsage` record. -/
structure TokenUsage where
  provider : String
  model : String
  totalTokens : ℚ
  inputTokens : Option ℚ
  outputTokens : Option ℚ
  cost : Cost
  timestamp : ℕ
  userId : Option String
  sessionId : Option String
deriving DecidableEq

/-- One entry of `UserUsage.usageByModel`. -/
structure ModelUsage where
  tokens : ℚ
  cost : ℚ
deriving DecidableEq

/-- Embedding of the `UserUsage` aggregate. -/
structure UserUsage where
  userId : String
  totalTokens : ℚ
  totalCost : ℚ
  currency : Currency
  usageByModel : List (String × ModelUsage)
  lastUsed : ℕ
deriving DecidableEq

/-- The part of `TrackerConfig` that the embedded behavior depends on
(`saveToDatabase`, `webhookUrl` and `enableFileStorage` only toggle
side effects outside the in-memory state). -/
structure TrackerConfig where
  currency : Currency
deriving DecidableEq

/-- `new TokenTracker()` configuration: currency defaults to USD.
Also the configuration of the MCP server's tracker
(`new TokenTracker({ currency: 'USD' })`). -/
def defaultConfig : TrackerConfig := ⟨Currency.USD⟩

/-- A value of the `activeTracking` map. -/
structure TrackingInfo where
  userId : Option String
  sessionId : Option String
  startTime : ℕ
deriving DecidableEq

/-- The three in-memory maps of a `TokenTracker`. -/
structure TrackerState where
  usageHistory : List (String × List TokenUsage)
  activeTracking : List (String × TrackingInfo)
  userTotals : List (String × UserUsage)
deriving DecidableEq

/-- A freshly constructed tracker (ignoring any storage snapshot load). -/
def emptyTracker : TrackerState := ⟨[], [], []⟩

/-- The `Partial<TokenUsage>` argument of `endTracking`. -/
structure PartialUsage where
  provider : Option String
  model : Option String
  totalTokens : Option ℚ
  inputTokens : Option ℚ
  outputTokens : Option ℚ
  cost : Option Cost
deriving DecidableEq

/-- JS `x || d` on an optional string: `undefined` and `""` are falsy. -/
def jsOrString (x : Option String) (d : String) : String :=
  match x with
  | some s => if s = "" then d else s
  | none => d

/-- JS `x || d` on an optional number: `undefined` and `0` are falsy
(`NaN`, which is also falsy, has no rational counterpart). -/
def jsOrNum (x : Option ℚ) (d : ℚ) : ℚ :=
  match x with
  | some t => if t = 0 then d else t
  | none => d

/-! ### Tracker operations (src/tracker.ts) -/

/-- The tracker's private `calculateCost`: USD cost from the pricing
module, multiplied by the fixed constant 1300 when the configured
currency is KRW ("approximate exchange rate" in the source; the
`ExchangeRateManager` cache is not consulted here). -/
def trackerCalculateCost (config : TrackerConfig) (provider model : String)
    (inputTokens outputTokens : ℚ) : Cost :=
  let costUSD := calculateCost provider model inputTokens outputTokens
  if config.currency = Currency.KRW then
    ⟨costUSD * 1300, Currency.KRW⟩
  else
    ⟨costUSD, Currency.USD⟩

/-- The `provider/model` key used by `updateUserTotals`. -/
def recKey (usage : TokenUsage) : String := usage.provider ++ "/" ++ usage.model

/-- Embedding of `updateUserTotals`. The freshly created entry's
`lastUsed = new Date()` is immediately overwritten by `usage.timestamp`,
so its initial value is immaterial and is taken to be `usage.timestamp`. -/
def updateUserTotals (config : TrackerConfig) (userId : String) (usage : TokenUsage)
    (totals : List (String × UserUsage)) : List (String × UserUsage) :=
  let base : UserUsage :=
    (mapLookup userId totals).getD ⟨userId, 0, 0, config.currency, [], usage.timestamp⟩
  let ut : UserUsage :=
    { base with
      totalTokens := base.totalTokens + usage.totalTokens
      totalCost := base.totalCost + usage.cost.amount
      lastUsed := usage.timestamp }
  let modelKey := recKey usage
  let mu : ModelUsage := (mapLookup modelKey ut.usageByModel).getD ⟨0, 0⟩
  let mu' : ModelUsage := ⟨mu.tokens + usage.totalTokens, mu.cost + usage.cost.amount⟩
  mapSet userId { ut with usageByModel := mapSet modelKey mu' ut.usageByModel } totals

/-- `usage.userId || 'anonymous'` in `recordUsage`. -/
def effectiveUserId (usage : TokenUsage) : String := jsOrString usage.userId "anonymous"

/-- Embedding of `recordUsage`: append to the user's history and update
the running totals. The write-through to file storage, the webhook POST
and the database hook are side effects outside the in-memory state. -/
def recordUsage (config : TrackerConfig) (s : TrackerState) (usage : TokenUsage) :
    TrackerState :=
  let userId := effectiveUserId usage
  let history := (mapLookup userId s.usageHistory).getD []
  { s with
    usageHistory := mapSet userId (history ++ [usage]) s.usageHistory
    userTotals := updateUserTotals config userId usage s.userTotals }

/-- Embedding of `startTracking`. The generated
`track_${Date.now()}_${random}` id and the current time are passed in as
parameters. -/
def startTracking (s : TrackerState) (trackingId : String)
    (userId sessionId : Option String) (now : ℕ) : TrackerState :=
  { s with activeTracking := mapSet trackingId ⟨userId, sessionId, now⟩ s.activeTracking }

/-- The `fullUsage` record built by `endTracking`: every missing field
of the partial usage is completed with the source's defaults (provider
`'openai'`, model `'unknown'`, total = input + output, cost from the
calculator), the timestamp is the current time, and user/session come
from the tracking session. -/
def completeUsage (config : TrackerConfig) (usage : PartialUsage)
    (tracking : TrackingInfo) (now : ℕ) : TokenUsage :=
  { provider := jsOrString usage.provider "openai"
    model := jsOrString usage.model "unknown"
    totalTokens := jsOrNum usage.totalTokens
      (jsOrNum usage.inputTokens 0 + jsOrNum usage.outputTokens 0)
    inputTokens := usage.inputTokens
    outputTokens := usage.outputTokens
    cost := usage.cost.getD
      (trackerCalculateCost config (jsOrString usage.provider "openai")
        (jsOrString usage.model "unknown")
        (jsOrNum usage.inputTokens 0) (jsOrNum usage.outputTokens 0))
    timestamp := now
    userId := tracking.userId
    sessionId := tracking.sessionId }

/-- Embedding of `endTracking`. An unknown tracking id raises
(`Except.error`); otherwise the partial usage is completed with the
source's defaults, recorded, and the session entry deleted. -/
def endTracking (config : TrackerConfig) (s : TrackerState) (trackingId : String)
    (usage : PartialUsage) (now : ℕ) : Except String (TokenUsage × TrackerState) :=
  match mapLookup trackingId s.activeTracking with
  | none => Except.error ("Tracking ID " ++ trackingId ++ " not found")
  | some tracking =>
    let fullUsage := completeUsage config usage tracking now
    let s' := recordUsage config s fullUsage
    Except.ok (fullUsage, { s' with activeTracking := mapDelete trackingId s'.activeTracking })

theorem endTracking_eq_ok (config : TrackerConfig) (s : TrackerState) (tid : String)
    (info : TrackingInfo) (usage : PartialUsage) (now : ℕ)
    (h : mapLookup tid s.activeTracking = some info) :
    endTracking config s tid usage now =
      Except.ok (completeUsage config usage info now,
        { recordUsage config s (completeUsage config usage info now) with
          activeTracking :=
            mapDelete tid (recordUsage config s (completeUsage config usage info now)).activeTracking }) := by
  unfold endTracking
  rw [h]

theorem endTracking_eq_error (config : TrackerConfig) (s : TrackerState) (tid : String)
    (usage : PartialUsage) (now : ℕ)
    (h : mapLookup tid s.activeTracking = none) :
    endTracking config s tid usage now =
      Except.error ("Tracking ID " ++ tid ++ " not found") := by
  unfold endTracking
  rw [h]

/-- The tracker state after an `endTracking` call: a thrown
`Tracking ID not found` error leaves the state unchanged, since the
throw happens before any mutation. -/
def endTrackingState (config : TrackerConfig) (s : TrackerState) (trackingId : String)
    (usage : PartialUsage) (now : ℕ) : TrackerState :=
  match endTracking config s trackingId usage now with
  | Except.ok (_, s') => s'
  | Except.error _ => s

/-- Embedding of `getUserUsage`. -/
def getUserUsage (s : TrackerState) (userId : String) : Option UserUsage :=
  mapLookup userId s.userTotals

/-- JS `arr.slice(-limit)`: the last `limit` elements; the whole list
when `limit = 0` (JS `slice(-0)` is `slice(0)`). -/
def takeLast (limit : ℕ) (l : List α) : List α :=
  if limit = 0 then l else l.drop (l.length - limit)

/-- Embedding of `getUserHistory` (default `limit` is 100). -/
def getUserHistory (s : TrackerState) (userId : String) (limit : ℕ) : List TokenUsage :=
  takeLast limit ((mapLookup userId s.usageHistory).getD [])

/-- Embedding of `clearUserUsage` (the write-through save is a side
effect outside the in-memory state). -/
def clearUserUsage (s : TrackerState) (userId : String) : TrackerState :=
  { s with
    usageHistory := mapDelete userId s.usageHistory
    userTotals := mapDelete userId s.userTotals }

/-- A sequence of `recordUsage` calls. -/
def recordAll (config : TrackerConfig) (s : TrackerState) (usages : List TokenUsage) :
    TrackerState :=
  usages.foldl (recordUsage config) s

/-! ### The `compare_costs` handler (src/mcp-server.js) -/

/-- The five curated models of the `compare_costs` handler:
provider, model, display name. -/
def compareModels : List (String × String × String) :=
  [("openai", "gpt-3.5-turbo", "GPT-3.5 Turbo"),
   ("openai", "gpt-4", "GPT-4"),
   ("anthropic", "claude-3-haiku-20240307", "Claude 3 Haiku"),
   ("anthropic", "claude-3-sonnet-20240229", "Claude 3 Sonnet"),
   ("anthropic", "claude-3-opus-20240229", "Claude 3 Opus")]

/-- One iteration of the handler's `models.map`: start a tracking
session for the `_comparison` user, end it with
`{provider, model, inputTokens: floor(tokens/2), outputTokens:
ceil(tokens/2), totalTokens: tokens}`, read the recorded cost from the
user's per-model breakdown, clear the `_comparison` user, and return
the cost together with the tracker state. -/
def compareOne (s : TrackerState) (tokens : ℚ) (provider model : String) :
    ℚ × TrackerState :=
  let s1 := startTracking s "cmp" (some "_comparison") none 0
  match endTracking defaultConfig s1 "cmp"
      ⟨some provider, some model, some tokens,
       some ((⌊tokens / 2⌋ : ℤ) : ℚ), some ((⌈tokens / 2⌉ : ℤ) : ℚ), none⟩ 0 with
  | Except.ok (_, s2) =>
    let cost := (((getUserUsage s2 "_comparison").bind
      (fun u => mapLookup (provider ++ "/" ++ model) u.usageByModel)).map
        ModelUsage.cost).getD 0
    (cost, clearUserUsage s2 "_comparison")
  | Except.error _ => (0, s)

/-- Stable insertion into a cost-ascending list: the new element goes
after every element with a smaller-or-equal cost. -/
def insertByCost (x : String × ℚ) : List (String × ℚ) → List (String × ℚ)
  | [] => [x]
  | y :: rest => if y.2 ≤ x.2 then y :: insertByCost x rest else x :: y :: rest

/-- Stable sort by ascending cost, the embedding of
`comparison.sort((a, b) => a.cost - b.cost)` (JS `Array.prototype.sort`
is stable). -/
def sortByCost (l : List (String × ℚ)) : List (String × ℚ) :=
  l.foldl (fun acc x => insertByCost x acc) []

/-- Embedding of the `compare_costs` handler: compute the five
`(display name, cost)` pairs, threading the MCP server's tracker state,
then sort by ascending cost. -/
def compareCosts (tokens : ℚ) : List (String × ℚ) :=
  let step := fun (acc : List (String × ℚ) × TrackerState) (pm : String × String × String) =>
    let r := compareOne acc.2 tokens pm.1 pm.2.1
    (acc.1 ++ [(pm.2.2, r.1)], r.2)
  sortByCost (compareModels.foldl step ([], emptyTracker)).1

/-! ### Persistence adapter (src/storage.ts), at the data level

`save` serializes the history and totals maps; the only representation
change visible after a `JSON.stringify`/`JSON.parse` round trip of
well-formed data is that `Date` fields become ISO strings, which `load`
parses back via `new Date(...)` (millisecond-exact). The date
serialization is embedded as an injective encoding of the millisecond
count into a decimal string together with its parser. -/

/-- Decimal digit to character. -/
def digitChar (d : ℕ) : Char := Char.ofNat (48 + d)

/-- Character to decimal digit. -/
def charDigit (c : Char) : ℕ := c.toNat - 48

/-- Serialize a millisecond timestamp to its decimal string
(standing in for `Date.prototype.toISOString`, which is injective on
millisecond counts). -/
def encodeDate (n : ℕ) : String :=
  ⟨((Nat.digits 10 n).reverse).map digitChar⟩

/-- Parse a serialized timestamp back to milliseconds (standing in for
`new Date(string)` on the strings `encodeDate` produces). -/
def decodeDate (s : String) : ℕ :=
  Nat.ofDigits 10 ((s.data.map charDigit).reverse)

theorem charDigit_digitChar (d : ℕ) (h : d < 10) : charDigit (digitChar d) = d := by
  interval_cases d <;> decide

theorem decodeDate_encodeDate (n : ℕ) : decodeDate (encodeDate n) = n := by
  unfold decodeDate encodeDate
  simp only [String.data]
  simp only [List.map_reverse, List.map_map, List.reverse_reverse]
  have : (Nat.digits 10 n).map (charDigit ∘ digitChar) = Nat.digits 10 n := by
    rw [show Nat.digits 10 n = (Nat.digits 10 n).map id from (List.map_id _).symm]
    rw [List.map_map]
    apply List.map_congr_left
    intro d hd
    simp only [List.map_id] at hd
    exact charDigit_digitChar d (Nat.digits_lt_base (by norm_num) hd)
  rw [this, Nat.ofDigits_digits]

/-- `TokenUsage` as it appears in the JSON snapshot: `timestamp` is a
string. -/
structure TokenUsageS where
  provider : String
  model : String
  totalTokens : ℚ
  inputTokens : Option ℚ
  outputTokens : Option ℚ
  cost : Cost
  timestamp : String
  userId : Option String
  sessionId : Option String
deriving DecidableEq

/-- `UserUsage` as it appears in the JSON snapshot: `lastUsed` is a
string. -/
structure UserUsageS where
  userId : String
  totalTokens : ℚ
  totalCost : ℚ
  currency : Currency
  usageByModel : List (String × ModelUsage)
  lastUsed : String
deriving DecidableEq

/-- The `StorageData` snapshot shape of src/storage.ts. -/
structure StorageData where
  history : List (String × List TokenUsageS)
  totals : List (String × UserUsageS)
  lastSaved : String
deriving DecidableEq

/-- Serialization of one usage record (`JSON.stringify` turns its
`Date` into an ISO string). -/
def serializeUsage (u : TokenUsage) : TokenUsageS :=
  ⟨u.provider, u.model, u.totalTokens, u.inputTokens, u.outputTokens, u.cost,
   encodeDate u.timestamp, u.userId, u.sessionId⟩

/-- `load`'s reconstruction of one usage record
(`usage.timestamp = new Date(usage.timestamp)`). -/
def parseUsage (u : TokenUsageS) : TokenUsage :=
  ⟨u.provider, u.model, u.totalTokens, u.inputTokens, u.outputTokens, u.cost,
   decodeDate u.timestamp, u.userId, u.sessionId⟩

/-- Serialization of one user total. -/
def serializeTotal (t : UserUsage) : UserUsageS :=
  ⟨t.userId, t.totalTokens, t.totalCost, t.currency, t.usageByModel,
   encodeDate t.lastUsed⟩

/-- `load`'s reconstruction of one user total
(`userTotal.lastUsed = new Date(userTotal.lastUsed)`). -/
def parseTotal (t : UserUsageS) : UserUsage :=
  ⟨t.userId, t.totalTokens, t.totalCost, t.currency, t.usageByModel,
   decodeDate t.lastUsed⟩

/-- Embedding of `FileStorage.save`: build the `StorageData` document
that is written to disk (`Object.fromEntries` of each map, dates
serialized, `lastSaved` set to the current time's ISO string). -/
def storageSave (history : List (String × List TokenUsage))
    (totals : List (String × UserUsage)) (now : String) : StorageData :=
  ⟨history.map (fun p => (p.1, p.2.map serializeUsage)),
   totals.map (fun p => (p.1, serializeTotal p.2)),
   now⟩

/-- Embedding of `FileStorage.load` on a present, well-formed snapshot:
parse the document and convert the serialized date strings back to
structured time values. -/
def storageLoad (d : StorageData) :
    List (String × List TokenUsage) × List (String × UserUsage) :=
  (d.history.map (fun p => (p.1, p.2.map parseUsage)),
   d.totals.map (fun p => (p.1, parseTotal p.2)))

/-! ### Claim theorems -/

theorem takeLast_nil (limit : ℕ) : takeLast limit ([] : List α) = [] := by
  unfold takeLast
  split <;> simp

/-- Claim C6: save followed by load reconstructs the same history and
totals — every `UserUsage` and every `TokenUsage` field is recovered,
the timestamp fields having been converted back from their serialized
string form to structured time values. -/
theorem map_eq_self (f : α → α) (hf : ∀ x, f x = x) (l : List α) : l.map f = l := by
  induction l with
  | nil => rfl
  | cons hd tl ih => rw [List.map_cons, hf, ih]

theorem storage_save_load_roundtrip (history : List (String × List TokenUsage))
    (totals : List (String × UserUsage)) (now : String) :
    storageLoad (storageSave history totals now) = (history, totals) := by
  have h1 : ∀ u, parseUsage (serializeUsage u) = u := by
    intro u
    cases u
    simp [parseUsage, serializeUsage, decodeDate_encodeDate]
  have h2 : ∀ t, parseTotal (serializeTotal t) = t := by
    intro t
    cases t
    simp [parseTotal, serializeTotal, decodeDate_encodeDate]
  unfold storageLoad storageSave
  dsimp only
  rw [List.map_map, List.map_map]
  have hp1 : ∀ p : String × List TokenUsage,
      ((fun p => (p.1, List.map parseUsage p.2)) ∘
        fun p => (p.1, List.map serializeUsage p.2)) p = p := by
    intro p
    obtain ⟨a, b⟩ := p
    simp only [Function.comp_apply, List.map_map]
    rw [map_eq_self (parseUsage ∘ serializeUsage) (fun u => h1 u) b]
  have hp2 : ∀ p : String × UserUsage,
      ((fun p => (p.1, parseTotal p.2)) ∘ fun p => (p.1, serializeTotal p.2)) p = p := by
    intro p
    obtain ⟨a, b⟩ := p
    simp only [Function.comp_apply, h2]
  rw [map_eq_self _ hp1, map_eq_self _ hp2]

/-- Claim C8: `clearUserUsage u` makes `getUserUsage u` return none and
`getUserHistory u` return the empty sequence, while every other user's
aggregate and history are unchanged. -/
theorem clearUserUsage_user_scoped (s : TrackerState) (u v : String) (hne : ¬ v = u) :
    getUserUsage (clearUserUsage s u) u = none ∧
    (∀ limit, getUserHistory (clearUserUsage s u) u limit = []) ∧
    getUserUsage (clearUserUsage s u) v = getUserUsage s v ∧
    (∀ limit, getUserHistory (clearUserUsage s u) v limit = getUserHistory s v limit) := by
  refine ⟨?_, ?_, ?_, ?_⟩
  · exact mapLookup_mapDelete_self u s.userTotals
  · intro limit
    show takeLast limit ((mapLookup u (mapDelete u s.usageHistory)).getD []) = []
    rw [mapLookup_mapDelete_self]
    exact takeLast_nil limit
  · exact mapLookup_mapDelete_ne u v s.userTotals hne
  · intro limit
    show takeLast limit ((mapLookup v (mapDelete u s.usageHistory)).getD []) =
      takeLast limit ((mapLookup v s.usageHistory).getD [])
    rw [mapLookup_mapDelete_ne u v s.usageHistory hne]

/-- A concrete two-user tracker state used by witnesses. -/
def witnessState : TrackerState :=
  { usageHistory :=
      [("alice", [⟨"openai", "gpt-4", 10, none, none, ⟨1, Currency.USD⟩, 100, some "alice", none⟩]),
       ("bob", [⟨"anthropic", "claude-2.1", 7, none, none, ⟨2, Currency.USD⟩, 200, some "bob", none⟩])],
    activeTracking := [],
    userTotals :=
      [("alice", ⟨"alice", 10, 1, Currency.USD, [("openai/gpt-4", ⟨10, 1⟩)], 100⟩),
       ("bob", ⟨"bob", 7, 2, Currency.USD, [("anthropic/claude-2.1", ⟨7, 2⟩)], 200⟩)] }

theorem clearUserUsage_user_scoped_witness :
    getUserUsage (clearUserUsage witnessState "alice") "alice" = none ∧
    (∀ limit, getUserHistory (clearUserUsage witnessState "alice") "alice" limit = []) ∧
    getUserUsage (clearUserUsage witnessState "alice") "bob" = getUserUsage witnessState "bob" ∧
    (∀ limit, getUserHistory (clearUserUsage witnessState "alice") "bob" limit =
      getUserHistory witnessState "bob" limit) :=
  clearUserUsage_user_scoped witnessState "alice" "bob" (by decide)

/-- Claim C4: ending a freshly started tracking session succeeds; a
second `endTracking` with the same id fails with the
`Tracking ID ... not found` error, and the failing call leaves the
tracker state unchanged. -/
theorem endTracking_at_most_once (config : TrackerConfig) (s : TrackerState)
    (tid : String) (uid sid : Option String) (t0 : ℕ)
    (usage usage2 : PartialUsage) (now now2 : ℕ) :
    ∃ rec s2, endTracking config (startTracking s tid uid sid t0) tid usage now =
        Except.ok (rec, s2) ∧
      endTracking config s2 tid usage2 now2 =
        Except.error ("Tracking ID " ++ tid ++ " not found") ∧
      endTrackingState config s2 tid usage2 now2 = s2 := by
  have h1 : mapLookup tid (startTracking s tid uid sid t0).activeTracking =
      some ⟨uid, sid, t0⟩ := mapLookup_mapSet_self tid _ s.activeTracking
  refine ⟨_, _, endTracking_eq_ok config _ tid ⟨uid, sid, t0⟩ usage now h1, ?_, ?_⟩
  · exact endTracking_eq_error config _ tid usage2 now2 (mapLookup_mapDelete_self tid _)
  · unfold endTrackingState
    rw [endTracking_eq_error config _ tid usage2 now2 (mapLookup_mapDelete_self tid _)]

theorem jsOrNum_none (d : ℚ) : jsOrNum none d = d := rfl

/-- `jsOrNum x 0` coincides with `Option.getD x 0`. -/
theorem jsOrNum_zero (x : Option ℚ) : jsOrNum x 0 = x.getD 0 := by
  cases x with
  | none => rfl
  | some t =>
    unfold jsOrNum
    by_cases h : t = 0
    · simp [h]
    · simp [h]

/-- Claim C7: on an active tracking id, `endTracking` completes missing
fields before recording — provider defaults to `"openai"`, totalTokens
defaults to inputTokens + outputTokens with missing counts taken as 0,
cost is computed by the cost calculator from the defaulted fields — and
the session entry is deleted after recording. -/
theorem endTracking_fills_defaults (config : TrackerConfig) (s : TrackerState)
    (tid : String) (info : TrackingInfo) (usage : PartialUsage) (now : ℕ)
    (hact : mapLookup tid s.activeTracking = some info)
    (hprov : usage.provider = none) (htot : usage.totalTokens = none)
    (hcost : usage.cost = none) :
    ∃ rec s', endTracking config s tid usage now = Except.ok (rec, s') ∧
      rec.provider = "openai" ∧
      rec.totalTokens = usage.inputTokens.getD 0 + usage.outputTokens.getD 0 ∧
      rec.cost = trackerCalculateCost config "openai" (jsOrString usage.model "unknown")
        (usage.inputTokens.getD 0) (usage.outputTokens.getD 0) ∧
      mapLookup tid s'.activeTracking = none := by
  refine ⟨_, _, endTracking_eq_ok config s tid info usage now hact, ?_, ?_, ?_, ?_⟩
  · simp [completeUsage, hprov, jsOrString]
  · simp [completeUsage, htot, jsOrNum_none, jsOrNum_zero]
  · simp [completeUsage, hcost, hprov, jsOrString, jsOrNum_zero]
  · exact mapLookup_mapDelete_self tid _

theorem endTracking_fills_defaults_witness :
    ∃ rec s', endTracking defaultConfig
        (startTracking emptyTracker "t1" (some "alice") none 5) "t1"
        ⟨none, some "gpt-4", none, some 100, some 50, none⟩ 9 = Except.ok (rec, s') ∧
      rec.provider = "openai" ∧
      rec.totalTokens = (some (100:ℚ)).getD 0 + (some (50:ℚ)).getD 0 ∧
      rec.cost = trackerCalculateCost defaultConfig "openai"
        (jsOrString (some "gpt-4") "unknown") ((some (100:ℚ)).getD 0) ((some (50:ℚ)).getD 0) ∧
      mapLookup "t1" s'.activeTracking = none :=
  endTracking_fills_defaults defaultConfig _ "t1" ⟨some "alice", none, 5⟩
    ⟨none, some "gpt-4", none, some 100, some 50, none⟩ 9
    (mapLookup_mapSet_self "t1" _ _) rfl rfl rfl

/-- Claim C10: on a KRW-configured tracker, `endTracking` with no
explicit cost records `{amount: calculateCost(provider, model,
inputTokens, outputTokens) * 1300, currency: 'KRW'}` — the multiplier
is the fixed constant 1300. -/
theorem endTracking_krw_constant (s : TrackerState) (tid : String) (info : TrackingInfo)
    (usage : PartialUsage) (now : ℕ)
    (hact : mapLookup tid s.activeTracking = some info)
    (hcost : usage.cost = none) :
    ∃ rec s', endTracking ⟨Currency.KRW⟩ s tid usage now = Except.ok (rec, s') ∧
      rec.cost.amount = calculateCost (jsOrString usage.provider "openai")
        (jsOrString usage.model "unknown") (jsOrNum usage.inputTokens 0)
        (jsOrNum usage.outputTokens 0) * 1300 ∧
      rec.cost.currency = Currency.KRW := by
  refine ⟨_, _, endTracking_eq_ok ⟨Currency.KRW⟩ s tid info usage now hact, ?_, ?_⟩
  · simp [completeUsage, hcost, trackerCalculateCost]
  · simp [completeUsage, hcost, trackerCalculateCost]

theorem endTracking_krw_constant_witness :
    ∃ rec s', endTracking ⟨Currency.KRW⟩
        (startTracking emptyTracker "t1" (some "alice") none 5) "t1"
        ⟨some "openai", some "gpt-4", none, some 100, some 50, none⟩ 9 =
        Except.ok (rec, s') ∧
      rec.cost.amount = calculateCost (jsOrString (some "openai") "openai")
        (jsOrString (some "gpt-4") "unknown") (jsOrNum (some 100) 0)
        (jsOrNum (some 50) 0) * 1300 ∧
      rec.cost.currency = Currency.KRW :=
  endTracking_krw_constant _ "t1" ⟨some "alice", none, 5⟩
    ⟨some "openai", some "gpt-4", none, some 100, some 50, none⟩ 9
    (mapLookup_mapSet_self "t1" _ _) rfl

/-- Claim C9: the experimental free-preview Gemini models cost zero for
all non-negative token counts, in dotted or dashed spelling. -/
theorem gemini_free_models_cost_zero (i o : ℚ) (hi : 0 ≤ i) (ho : 0 ≤ o) :
    calculateCost "gemini" "gemini-2.0-flash-exp" i o = 0 ∧
    calculateCost "gemini" "gemini-2-0-flash-exp" i o = 0 ∧
    calculateCost "gemini" "gemini-2.0-flash-thinking-exp-1219" i o = 0 ∧
    calculateCost "gemini" "gemini-2-0-flash-thinking-exp-1219" i o = 0 := by
  refine ⟨?_, ?_, ?_, ?_⟩ <;>
  · rw [calculateCost_gemini_token _ ⟨0, 0⟩ _ _ (by decide)]
    simp [tokenCost]

theorem gemini_free_models_cost_zero_witness :
    calculateCost "gemini" "gemini-2.0-flash-exp" 12345 67890 = 0 ∧
    calculateCost "gemini" "gemini-2-0-flash-exp" 12345 67890 = 0 ∧
    calculateCost "gemini" "gemini-2.0-flash-thinking-exp-1219" 12345 67890 = 0 ∧
    calculateCost "gemini" "gemini-2-0-flash-thinking-exp-1219" 12345 67890 = 0 :=
  gemini_free_models_cost_zero 12345 67890 (by decide) (by decide)

/-- Claim C5: `calculateCost` is total and non-negative on non-negative
unit counts; a model string that matches no pricing entry falls back to
the provider's documented default entry (gpt-3.5-turbo for openai,
claude-3-sonnet-20240229 for anthropic, gemini-1.5-flash for gemini);
an unknown provider yields `(inputUnits + outputUnits) * 0.001`. -/
theorem calculateCost_total_nonneg_fallbacks :
    (∀ p m i o, 0 ≤ i → 0 ≤ o → 0 ≤ calculateCost p m i o) ∧
    (∀ m i o, strStartsWith (normalizeModelName m) "dall-e" = false →
      ¬ normalizeModelName m = "whisper-1" →
      ttsRate (normalizeModelName m) = none →
      findTokenRates (normalizeModelName m) openaiGptCandidates openaiPricingKey
        openaiTokenPricing = none →
      calculateCost "openai" m i o = tokenCost openaiDefaultRates i o) ∧
    (∀ m i o, findTokenRates (normalizeModelName m) anthropicCandidates
        anthropicPricingKey anthropicPricing = none →
      calculateCost "anthropic" m i o = tokenCost anthropicDefaultRates i o) ∧
    (∀ m i o, findTokenRates (normalizeModelName m) geminiCandidates geminiPricingKey
        geminiPricing = none →
      calculateCost "gemini" m i o = tokenCost geminiDefaultRates i o) ∧
    (∀ p m i o, ¬ p = "openai" → ¬ p = "anthropic" → ¬ p = "gemini" →
      calculateCost p m i o = (i + o) * mkRat 1 1000) :=
  ⟨fun p m i o hi ho => calculateCost_nonneg p m i o hi ho,
   fun m i o h1 h2 h3 h4 => calculateCost_openai_default m i o h1 h2 h3 h4,
   fun m i o h => calculateCost_anthropic_default m i o h,
   fun m i o h => calculateCost_gemini_default m i o h,
   fun p m i o h1 h2 h3 => calculateCost_unknown_provider p m i o h1 h2 h3⟩

theorem calculateCost_total_nonneg_fallbacks_witness :
    0 ≤ calculateCost "openai" "gpt-4" 3 7 ∧
    calculateCost "openai" "mystery-model" 100 50 = tokenCost openaiDefaultRates 100 50 ∧
    calculateCost "anthropic" "mystery-model" 100 50 = tokenCost anthropicDefaultRates 100 50 ∧
    calculateCost "gemini" "mystery-model" 100 50 = tokenCost geminiDefaultRates 100 50 ∧
    calculateCost "mistral" "mistral-small" 100 50 = ((100:ℚ) + 50) * mkRat 1 1000 :=
  ⟨calculateCost_total_nonneg_fallbacks.1 "openai" "gpt-4" 3 7 (by decide) (by decide),
   calculateCost_total_nonneg_fallbacks.2.1 "mystery-model" 100 50
     (by decide) (by decide) (by decide) (by decide),
   calculateCost_total_nonneg_fallbacks.2.2.1 "mystery-model" 100 50 (by decide),
   calculateCost_total_nonneg_fallbacks.2.2.2.1 "mystery-model" 100 50 (by decide),
   calculateCost_total_nonneg_fallbacks.2.2.2.2 "mistral" "mistral-small" 100 50
     (by decide) (by decide) (by decide)⟩

/-! ### Claim C2: the worked cost example -/

/-- Tracker state of the worked example: one freshly started session. -/
def c2State : TrackerState := startTracking emptyTracker "t1" (some "alice") none 0

/-- The explicit usage of the worked example: provider `openai`, model
`gpt-3.5-turbo`, 100 input and 50 output tokens, no explicit cost. -/
def c2Partial : PartialUsage :=
  ⟨some "openai", some "gpt-3.5-turbo", none, some 100, some 50, none⟩

theorem c2_cost_eval : calculateCost "openai" "gpt-3.5-turbo" 100 50 = mkRat 125 1000000 := by
  rw [calculateCost_openai_token "gpt-3.5-turbo" ⟨mkRat 5 10000, mkRat 15 10000⟩ 100 50
    (by decide) (by decide) (by decide) (by decide)]
  norm_num [tokenCost, Rat.mkRat_eq_div]

/-- Claim C2 (counterexample): the recorded cost amount of the worked
example is 0.000125 USD, not the claimed 0.0001125 — the spec's decimal
evaluation of (100/1000)*0.0005 + (50/1000)*0.0015 is off. -/
theorem worked_cost_example_counterexample :
    ∃ rec s', endTracking defaultConfig c2State "t1" c2Partial 9 = Except.ok (rec, s') ∧
      rec.cost.amount = mkRat 125 1000000 ∧
      ¬ rec.cost.amount = mkRat 1125 10000000 := by
  refine ⟨_, _, endTracking_eq_ok defaultConfig c2State "t1" ⟨some "alice", none, 0⟩
    c2Partial 9 (by decide), ?_, ?_⟩
  · show (completeUsage defaultConfig c2Partial ⟨some "alice", none, 0⟩ 9).cost.amount =
      mkRat 125 1000000
    simp +decide only [completeUsage, c2Partial, jsOrString, jsOrNum, Option.getD,
      trackerCalculateCost, defaultConfig, if_false]
    exact c2_cost_eval
  · show ¬ (completeUsage defaultConfig c2Partial ⟨some "alice", none, 0⟩ 9).cost.amount =
      mkRat 1125 10000000
    simp +decide only [completeUsage, c2Partial, jsOrString, jsOrNum, Option.getD,
      trackerCalculateCost, defaultConfig, if_false]
    rw [c2_cost_eval]
    decide

/-- Claim C2 (amended): start followed immediately by end with explicit
`{inputTokens: 100, outputTokens: 50}` for openai gpt-3.5-turbo records
a cost of `(100/1000)*0.0005 + (50/1000)*0.0015 = 0.000125` USD. -/
theorem worked_cost_example :
    ∃ rec s', endTracking defaultConfig c2State "t1" c2Partial 9 = Except.ok (rec, s') ∧
      rec.cost.amount = (100:ℚ) / 1000 * mkRat 5 10000 + (50:ℚ) / 1000 * mkRat 15 10000 ∧
      rec.cost.amount = mkRat 125 1000000 ∧
      rec.cost.currency = Currency.USD := by
  refine ⟨_, _, endTracking_eq_ok defaultConfig c2State "t1" ⟨some "alice", none, 0⟩
    c2Partial 9 (by decide), ?_, ?_, ?_⟩
  · show (completeUsage defaultConfig c2Partial ⟨some "alice", none, 0⟩ 9).cost.amount =
      (100:ℚ) / 1000 * mkRat 5 10000 + (50:ℚ) / 1000 * mkRat 15 10000
    simp +decide only [completeUsage, c2Partial, jsOrString, jsOrNum, Option.getD,
      trackerCalculateCost, defaultConfig, if_false]
    rw [c2_cost_eval]
    norm_num [Rat.mkRat_eq_div]
  · show (completeUsage defaultConfig c2Partial ⟨some "alice", none, 0⟩ 9).cost.amount =
      mkRat 125 1000000
    simp +decide only [completeUsage, c2Partial, jsOrString, jsOrNum, Option.getD,
      trackerCalculateCost, defaultConfig, if_false]
    exact c2_cost_eval
  · show (completeUsage defaultConfig c2Partial ⟨some "alice", none, 0⟩ 9).cost.currency =
      Currency.USD
    simp +decide only [completeUsage, c2Partial, jsOrString, jsOrNum, Option.getD,
      trackerCalculateCost, defaultConfig, if_false]

/-! ### Claim C3: the cost-comparison ranking for 1000 tokens -/

theorem c3_cost_gpt35 : calculateCost "openai" "gpt-3.5-turbo" 500 500 = mkRat 1 1000 := by
  rw [calculateCost_openai_token "gpt-3.5-turbo" ⟨mkRat 5 10000, mkRat 15 10000⟩ 500 500
    (by decide) (by decide) (by decide) (by decide)]
  norm_num [tokenCost, Rat.mkRat_eq_div]

theorem c3_cost_gpt4 : calculateCost "openai" "gpt-4" 500 500 = mkRat 45 1000 := by
  rw [calculateCost_openai_token "gpt-4" ⟨mkRat 3 100, mkRat 6 100⟩ 500 500
    (by decide) (by decide) (by decide) (by decide)]
  norm_num [tokenCost, Rat.mkRat_eq_div]

theorem c3_cost_haiku :
    calculateCost "anthropic" "claude-3-haiku-20240307" 500 500 = mkRat 75 100000 := by
  rw [calculateCost_anthropic_token "claude-3-haiku-20240307"
    ⟨mkRat 25 100000, mkRat 125 100000⟩ 500 500 (by decide)]
  norm_num [tokenCost, Rat.mkRat_eq_div]

theorem c3_cost_sonnet :
    calculateCost "anthropic" "claude-3-sonnet-20240229" 500 500 = mkRat 9 1000 := by
  rw [calculateCost_anthropic_token "claude-3-sonnet-20240229"
    ⟨mkRat 3 1000, mkRat 15 1000⟩ 500 500 (by decide)]
  norm_num [tokenCost, Rat.mkRat_eq_div]

theorem c3_cost_opus :
    calculateCost "anthropic" "claude-3-opus-20240229" 500 500 = mkRat 45 1000 := by
  rw [calculateCost_anthropic_token "claude-3-opus-20240229"
    ⟨mkRat 15 1000, mkRat 75 1000⟩ 500 500 (by decide)]
  norm_num [tokenCost, Rat.mkRat_eq_div]

/-- Evaluation of one `compare_costs` iteration from an empty tracker:
the cost read back from the breakdown is the calculator's cost for a
500/500 split, and the tracker returns to the empty state. -/
theorem compareOne_eval (p m : String) (c : ℚ) (hp : ¬ p = "") (hm : ¬ m = "")
    (hc : calculateCost p m 500 500 = c) :
    compareOne emptyTracker 1000 p m = (0 + c, emptyTracker) := by
  have hfl : ((⌊(1000:ℚ) / 2⌋ : ℤ) : ℚ) = 500 := by norm_num
  have hce : ((⌈(1000:ℚ) / 2⌉ : ℤ) : ℚ) = 500 := by norm_num
  have h1000 : ¬ (1000:ℚ) = 0 := by norm_num
  have h500 : ¬ (500:ℚ) = 0 := by norm_num
  simp only [compareOne]
  rw [hfl, hce]
  rw [endTracking_eq_ok defaultConfig _ "cmp" ⟨some "_comparison", none, 0⟩ _ 0 (by decide)]
  simp +decide only [completeUsage, jsOrString, jsOrNum, Option.getD, trackerCalculateCost,
    defaultConfig, recordUsage, updateUserTotals, effectiveUserId, getUserUsage,
    clearUserUsage, startTracking, emptyTracker, mapSet, mapLookup, mapDelete, recKey,
    if_false, if_true, hp, hm, h1000, h500, hc, Option.map, Option.bind]

/-- Full evaluation of the `compare_costs` handler at 1000 tokens. -/
theorem compareCosts_eval : compareCosts 1000 =
    [("Claude 3 Haiku", mkRat 75 100000), ("GPT-3.5 Turbo", mkRat 1 1000),
     ("Claude 3 Sonnet", mkRat 9 1000), ("GPT-4", mkRat 45 1000),
     ("Claude 3 Opus", mkRat 45 1000)] := by
  unfold compareCosts compareModels
  simp only [List.foldl_cons, List.foldl_nil]
  rw [compareOne_eval "openai" "gpt-3.5-turbo" (mkRat 1 1000) (by decide) (by decide)
    c3_cost_gpt35]
  dsimp only
  rw [compareOne_eval "openai" "gpt-4" (mkRat 45 1000) (by decide) (by decide) c3_cost_gpt4]
  dsimp only
  rw [compareOne_eval "anthropic" "claude-3-haiku-20240307" (mkRat 75 100000) (by decide)
    (by decide) c3_cost_haiku]
  dsimp only
  rw [compareOne_eval "anthropic" "claude-3-sonnet-20240229" (mkRat 9 1000) (by decide)
    (by decide) c3_cost_sonnet]
  dsimp only
  rw [compareOne_eval "anthropic" "claude-3-opus-20240229" (mkRat 45 1000) (by decide)
    (by decide) c3_cost_opus]
  dsimp only
  simp only [zero_add, List.nil_append, List.cons_append]
  decide

/-- Strict ascent of a cost list, as an executable predicate. -/
def costsStrictlyAscending : List ℚ → Bool
  | [] => true
  | [_] => true
  | a :: b :: rest => decide (a < b) && costsStrictlyAscending (b :: rest)

/-- Non-decreasing order of a cost list, as an executable predicate. -/
def costsNondecreasing : List ℚ → Bool
  | [] => true
  | [_] => true
  | a :: b :: rest => decide (a ≤ b) && costsNondecreasing (b :: rest)

/-- Claim C3 (counterexample): comparing 1000 tokens split 500/500
across the five curated models does NOT yield a strictly increasing
cost list — the last two entries, GPT-4 and Claude 3 Opus, both cost
0.045. -/
theorem compare_costs_not_strict :
    costsStrictlyAscending ((compareCosts 1000).map Prod.snd) = false ∧
    (compareCosts 1000).map Prod.snd =
      [mkRat 75 100000, mkRat 1 1000, mkRat 9 1000, mkRat 45 1000, mkRat 45 1000] := by
  rw [compareCosts_eval]
  exact ⟨by decide, by decide⟩

/-- Claim C3 (amended): the comparison of 1000 tokens split 500/500
across the five curated models yields a list sorted by non-decreasing
cost, with exactly one duplicated cost value: GPT-4 and Claude 3 Opus
tie at 0.045, and the remaining three costs are pairwise distinct. -/
theorem compare_costs_sorted_with_tie :
    compareCosts 1000 =
      [("Claude 3 Haiku", mkRat 75 100000), ("GPT-3.5 Turbo", mkRat 1 1000),
       ("Claude 3 Sonnet", mkRat 9 1000), ("GPT-4", mkRat 45 1000),
       ("Claude 3 Opus", mkRat 45 1000)] ∧
    costsNondecreasing ((compareCosts 1000).map Prod.snd) = true ∧
    costsStrictlyAscending ((compareCosts 1000).map Prod.snd) = false := by
  refine ⟨compareCosts_eval, ?_, ?_⟩ <;>
  · rw [compareCosts_eval]
    decide

/-! ### Claim C1: the aggregate-fold invariant -/

/-- Sum of `totalTokens` over a record list. -/
def sumTokens (l : List TokenUsage) : ℚ := (l.map TokenUsage.totalTokens).sum

/-- Sum of `cost.amount` over a record list. -/
def sumCost (l : List TokenUsage) : ℚ := (l.map (fun u => u.cost.amount)).sum

/-- The records whose `provider/model` key is `k`. -/
def filterKey (k : String) (l : List TokenUsage) : List TokenUsage :=
  l.filter (fun u => recKey u == k)

/-- The stored history of a user. -/
def histOf (s : TrackerState) (uid : String) : List TokenUsage :=
  (mapLookup uid s.usageHistory).getD []

/-- The per-model breakdown is the fold of the record list restricted
to each key, and its sums across entries equal the sums over all
records. -/
def breakdownInv (bm : List (String × ModelUsage)) (recs : List TokenUsage) : Prop :=
  (∀ k mu, mapLookup k bm = some mu →
    mu.tokens = sumTokens (filterKey k recs) ∧ mu.cost = sumCost (filterKey k recs)) ∧
  (∀ k, mapLookup k bm = none → filterKey k recs = []) ∧
  mapSum ModelUsage.tokens bm = sumTokens recs ∧
  mapSum ModelUsage.cost bm = sumCost recs

/-- The per-user invariant: absent totals entry means empty history;
a present entry is the fold of the stored history. -/
def InvUser (s : TrackerState) (uid : String) : Prop :=
  (mapLookup uid s.userTotals = none → histOf s uid = []) ∧
  (∀ t, mapLookup uid s.userTotals = some t →
    t.totalTokens = sumTokens (histOf s uid) ∧
    t.totalCost = sumCost (histOf s uid) ∧
    breakdownInv t.usageByModel (histOf s uid))

theorem sumTokens_append (l : List TokenUsage) (r : TokenUsage) :
    sumTokens (l ++ [r]) = sumTokens l + r.totalTokens := by
  simp [sumTokens]

theorem sumCost_append (l : List TokenUsage) (r : TokenUsage) :
    sumCost (l ++ [r]) = sumCost l + r.cost.amount := by
  simp [sumCost]

theorem filterKey_append_eq (k : String) (l : List TokenUsage) (r : TokenUsage)
    (h : recKey r = k) : filterKey k (l ++ [r]) = filterKey k l ++ [r] := by
  simp [filterKey, List.filter_append, h]

theorem filterKey_append_ne (k : String) (l : List TokenUsage) (r : TokenUsage)
    (h : ¬ recKey r = k) : filterKey k (l ++ [r]) = filterKey k l := by
  simp [filterKey, List.filter_append, h]

theorem breakdownInv_nil : breakdownInv [] [] :=
  ⟨fun _ _ h => Option.noConfusion h, fun _ _ => rfl, rfl, rfl⟩

/-- `updateUserTotals`'s breakdown update preserves the breakdown
invariant when the new record is appended to the record list. -/
theorem breakdownInv_update (bm : List (String × ModelUsage)) (recs : List TokenUsage)
    (r : TokenUsage) (hb : breakdownInv bm recs) :
    breakdownInv
      (mapSet (recKey r)
        ⟨((mapLookup (recKey r) bm).getD ⟨0, 0⟩).tokens + r.totalTokens,
         ((mapLookup (recKey r) bm).getD ⟨0, 0⟩).cost + r.cost.amount⟩ bm)
      (recs ++ [r]) := by
  obtain ⟨hsome, hnone, hst, hsc⟩ := hb
  refine ⟨?_, ?_, ?_, ?_⟩
  · intro k mu hk
    by_cases hkk : k = recKey r
    · subst hkk
      rw [mapLookup_mapSet_self] at hk
      injection hk with hk
      subst hk
      rw [filterKey_append_eq (recKey r) recs r rfl, sumTokens_append, sumCost_append]
      cases hlk : mapLookup (recKey r) bm with
      | some w =>
        constructor
        · show w.tokens + r.totalTokens = sumTokens (filterKey (recKey r) recs) + r.totalTokens
          rw [(hsome (recKey r) w hlk).1]
        · show w.cost + r.cost.amount = sumCost (filterKey (recKey r) recs) + r.cost.amount
          rw [(hsome (recKey r) w hlk).2]
      | none =>
        have hf := hnone (recKey r) hlk
        constructor
        · show (0:ℚ) + r.totalTokens = sumTokens (filterKey (recKey r) recs) + r.totalTokens
          rw [hf]
          simp [sumTokens]
        · show (0:ℚ) + r.cost.amount = sumCost (filterKey (recKey r) recs) + r.cost.amount
          rw [hf]
          simp [sumCost]
    · rw [mapLookup_mapSet_ne _ _ _ _ hkk] at hk
      rw [filterKey_append_ne k recs r (fun he => hkk he.symm)]
      exact hsome k mu hk
  · intro k hk
    by_cases hkk : k = recKey r
    · subst hkk
      rw [mapLookup_mapSet_self] at hk
      cases hk
    · rw [mapLookup_mapSet_ne _ _ _ _ hkk] at hk
      rw [filterKey_append_ne k recs r (fun he => hkk he.symm)]
      exact hnone k hk
  · cases hlk : mapLookup (recKey r) bm with
    | some w =>
      rw [mapSum_mapSet_some _ _ w _ _ hlk, hst, sumTokens_append]
      simp only [Option.getD]
      ring
    | none =>
      rw [mapSum_mapSet_none _ _ _ _ hlk, hst, sumTokens_append]
      simp only [Option.getD]
      ring
  · cases hlk : mapLookup (recKey r) bm with
    | some w =>
      rw [mapSum_mapSet_some _ _ w _ _ hlk, hsc, sumCost_append]
      simp only [Option.getD]
      ring
    | none =>
      rw [mapSum_mapSet_none _ _ _ _ hlk, hsc, sumCost_append]
      simp only [Option.getD]
      ring

theorem recordUsage_userTotals (config : TrackerConfig) (s : TrackerState) (r : TokenUsage) :
    (recordUsage config s r).userTotals =
      updateUserTotals config (effectiveUserId r) r s.userTotals := rfl

theorem histOf_recordUsage_self (config : TrackerConfig) (s : TrackerState) (r : TokenUsage) :
    histOf (recordUsage config s r) (effectiveUserId r) =
      histOf s (effectiveUserId r) ++ [r] := by
  simp only [histOf, recordUsage]
  rw [mapLookup_mapSet_self]
  rfl

theorem histOf_recordUsage_ne (config : TrackerConfig) (s : TrackerState) (r : TokenUsage)
    (uid : String) (h : uid ≠ effectiveUserId r) :
    histOf (recordUsage config s r) uid = histOf s uid := by
  simp only [histOf, recordUsage]
  rw [mapLookup_mapSet_ne _ _ _ _ h]

/-- `recordUsage` preserves the per-user invariant for every user. -/
theorem InvUser_recordUsage (config : TrackerConfig) (s : TrackerState) (r : TokenUsage)
    (hinv : ∀ u, InvUser s u) : ∀ u, InvUser (recordUsage config s r) u := by
  intro u
  by_cases hu : u = effectiveUserId r
  · subst hu
    have hhist := histOf_recordUsage_self config s r
    have hIH := hinv (effectiveUserId r)
    constructor
    · intro hn
      rw [recordUsage_userTotals] at hn
      simp only [updateUserTotals] at hn
      rw [mapLookup_mapSet_self] at hn
      exact Option.noConfusion hn
    · intro t ht
      rw [recordUsage_userTotals] at ht
      simp only [updateUserTotals] at ht
      rw [mapLookup_mapSet_self] at ht
      injection ht with ht
      subst ht
      rw [hhist]
      cases hlk : mapLookup (effectiveUserId r) s.userTotals with
      | none =>
        have hempty : histOf s (effectiveUserId r) = [] := hIH.1 hlk
        rw [hempty]
        simp only [Option.getD]
        refine ⟨by simp [sumTokens], by simp [sumCost], ?_⟩
        exact breakdownInv_update [] [] r breakdownInv_nil
      | some t0 =>
        obtain ⟨htt, htc, hbd⟩ := hIH.2 t0 hlk
        simp only [Option.getD]
        refine ⟨?_, ?_, ?_⟩
        · rw [sumTokens_append, htt]
        · rw [sumCost_append, htc]
        · exact breakdownInv_update t0.usageByModel _ r hbd
  · have hhist := histOf_recordUsage_ne config s r u hu
    have hIH := hinv u
    constructor
    · intro hn
      rw [recordUsage_userTotals] at hn
      simp only [updateUserTotals] at hn
      rw [mapLookup_mapSet_ne _ _ _ _ hu] at hn
      rw [hhist]
      exact hIH.1 hn
    · intro t ht
      rw [recordUsage_userTotals] at ht
      simp only [updateUserTotals] at ht
      rw [mapLookup_mapSet_ne _ _ _ _ hu] at ht
      rw [hhist]
      exact hIH.2 t ht

theorem InvUser_empty (u : String) : InvUser emptyTracker u :=
  ⟨fun _ => rfl, fun _ ht => Option.noConfusion ht⟩

theorem InvUser_recordAll (config : TrackerConfig) (us : List TokenUsage) :
    ∀ (s : TrackerState), (∀ u, InvUser s u) → ∀ u, InvUser (recordAll config s us) u := by
  induction us with
  | nil => intro s hinv; exact hinv
  | cons r rest ih =>
    intro s hinv
    exact ih (recordUsage config s r) (InvUser_recordUsage config s r hinv)

/-- The records of a sequence of `recordUsage` calls that land on a
given user. -/
def userRecords (us : List TokenUsage) (uid : String) : List TokenUsage :=
  us.filter (fun r => effectiveUserId r == uid)

theorem histOf_recordAll (config : TrackerConfig) (us : List TokenUsage) :
    ∀ (s : TrackerState) (uid : String),
      histOf (recordAll config s us) uid = histOf s uid ++ userRecords us uid := by
  induction us with
  | nil => intro s uid; simp [recordAll, userRecords]
  | cons r rest ih =>
    intro s uid
    have hstep : recordAll config s (r :: rest) =
        recordAll config (recordUsage config s r) rest := rfl
    rw [hstep, ih]
    by_cases h : effectiveUserId r = uid
    · subst h
      rw [histOf_recordUsage_self]
      simp [userRecords, List.filter_cons]
    · rw [histOf_recordUsage_ne config s r uid (fun he => h he.symm)]
      simp [userRecords, List.filter_cons, h]

/-- Claim C1: for every sequence of record calls, the stored
`UserUsage` aggregate of a user equals the fold of that user's
`TokenUsage` records: total tokens and total cost are the sums over the
user's records, each per-model breakdown entry carries the sums over
the records with that `provider/model` key, and the sums across all
breakdown entries equal the totals. -/
theorem aggregate_fold_invariant (config : TrackerConfig) (us : List TokenUsage)
    (uid : String) (t : UserUsage)
    (h : getUserUsage (recordAll config emptyTracker us) uid = some t) :
    t.totalTokens = sumTokens (userRecords us uid) ∧
    t.totalCost = sumCost (userRecords us uid) ∧
    (∀ k mu, mapLookup k t.usageByModel = some mu →
      mu.tokens = sumTokens (filterKey k (userRecords us uid)) ∧
      mu.cost = sumCost (filterKey k (userRecords us uid))) ∧
    mapSum ModelUsage.tokens t.usageByModel = t.totalTokens ∧
    mapSum ModelUsage.cost t.usageByModel = t.totalCost := by
  have hinv := InvUser_recordAll config us emptyTracker InvUser_empty uid
  have hhist := histOf_recordAll config us emptyTracker uid
  have hnil : histOf emptyTracker uid = [] := rfl
  rw [hnil, List.nil_append] at hhist
  obtain ⟨htt, htc, hbd⟩ := hinv.2 t h
  rw [hhist] at htt htc hbd
  obtain ⟨hsome, _, hst, hsc⟩ := hbd
  exact ⟨htt, htc, hsome, by rw [hst, htt], by rw [hsc, htc]⟩

/-- Three concrete records (two for alice on the same model, one for
bob) used by the C1 witness. -/
def c1Records : List TokenUsage :=
  [⟨"openai", "gpt-4", 10, none, none, ⟨1, Currency.USD⟩, 100, some "alice", none⟩,
   ⟨"openai", "gpt-4", 5, none, none, ⟨2, Currency.USD⟩, 200, some "alice", none⟩,
   ⟨"anthropic", "claude-2.1", 7, none, none, ⟨3, Currency.USD⟩, 300, some "bob", none⟩]

/-- The aggregate the tracker computes for alice from `c1Records`. -/
def c1Agg : UserUsage :=
  ⟨"alice", 15, 3, Currency.USD, [("openai/gpt-4", ⟨15, 3⟩)], 200⟩

theorem c1_state_eval :
    getUserUsage (recordAll defaultConfig emptyTracker c1Records) "alice" = some c1Agg := by
  simp +decide only [c1Records, recordAll, List.foldl_cons, List.foldl_nil, recordUsage,
    updateUserTotals, effectiveUserId, jsOrString, mapSet, mapLookup, Option.getD, recKey,
    getUserUsage, emptyTracker, defaultConfig, if_false, if_true, c1Agg]
  norm_num [UserUsage.mk.injEq, ModelUsage.mk.injEq, Prod.mk.injEq]
  decide

theorem aggregate_fold_invariant_witness :
    getUserUsage (recordAll defaultConfig emptyTracker c1Records) "alice" = some c1Agg ∧
    (c1Agg.totalTokens = sumTokens (userRecords c1Records "alice") ∧
     c1Agg.totalCost = sumCost (userRecords c1Records "alice") ∧
     (∀ k mu, mapLookup k c1Agg.usageByModel = some mu →
       mu.tokens = sumTokens (filterKey k (userRecords c1Records "alice")) ∧
       mu.cost = sumCost (filterKey k (userRecords c1Records "alice"))) ∧
     mapSum ModelUsage.tokens c1Agg.usageByModel = c1Agg.totalTokens ∧
     mapSum ModelUsage.cost c1Agg.usageByModel = c1Agg.totalCost) :=
  ⟨c1_state_eval,
   aggregate_fold_invariant defaultConfig c1Records "alice" c1Agg c1_state_eval⟩

end TokenTrackerSpec
